import Mathlib

/-!
Shallow embedding of the repository's notebooks: the Snowflake warehouse
connector notebook, the SageMaker preprocessing / training / orchestration
notebooks, the deployment notebook, and the BYOC local-serving test
notebook.  Pure data manipulations (dataframe mutation, the train/test
split, the preprocessing script) are embedded as Lean functions over exact
arithmetic (ℚ for numeric cells); configuration dictionaries are embedded
as structures; the notebooks' resource lifecycle (endpoint creation and
deletion) is embedded as an explicit event trace folded into a live-set.
-/

namespace R7

/-! ## Warehouse connector notebook (connect-to-snowflake.ipynb)

The notebook fetches a query result into a pandas dataframe `df`, draws
`temp = random.randint(0, 100)`, executes `df.loc[0, ('X0')] = temp`, and
hands the mutated dataframe to `write_pandas`.  A dataframe is embedded as
a total cell map from (row index, column label) to a rational value. -/

structure DataFrame where
  nrows : ℕ
  cols : List String
  val : ℕ → String → ℚ

/-- `random.randint(lo, hi)`: an integer drawn uniformly from the closed
interval `[lo, hi]`; embedded as a function of the generator state `seed`
whose result is `lo + seed % (hi - lo + 1)`, which realises exactly the
closed-interval range contract of `randint`. -/
def randint (lo hi seed : ℕ) : ℕ := lo + seed % (hi - lo + 1)

/-- `df.loc[r, (c)] = v`: point update of one cell of the dataframe. -/
def DataFrame.setCell (df : DataFrame) (r : ℕ) (c : String) (v : ℚ) : DataFrame :=
  { df with val := fun r' c' => if r' = r ∧ c' = c then v else df.val r' c' }

/-- The mutation the notebook performs between fetch and write-back:
`temp = random.randint(0,100); df.loc[0,('X0')] = temp`. -/
def snowflakeMutate (df : DataFrame) (seed : ℕ) : DataFrame :=
  df.setCell 0 "X0" (randint 0 100 seed)

/-- `write_pandas(ctx, df, 'MGML_AWS_SOURCE')` writes the dataframe back to
the warehouse table verbatim; the written table content is the dataframe
passed in. -/
def write_pandas (df : DataFrame) : DataFrame := df

/-! ## Data-preparation notebook: the train/test split

`training_index = math.floor(.8 * boston['data'].shape[0])`, then
`x[:training_index]` / `x[training_index:]` and likewise for `y`. -/

/-- `math.floor(.8 * n)` in exact arithmetic: `⌊4n/5⌋`. -/
def training_index (n : ℕ) : ℕ := 4 * n / 5

/-- The split applied to both the feature matrix and the label vector:
`x[:k], y[:k], x[k:], y[k:]` where `k = training_index x.length`. -/
def dataSplit (x : List (List ℚ)) (y : List ℚ) :
    List (List ℚ) × List ℚ × List (List ℚ) × List ℚ :=
  let k := training_index x.length
  (x.take k, y.take k, x.drop k, y.drop k)

/-! ## Data-preparation notebook: the stand-alone preprocessing script

`preprocessing.py` globs `/opt/ml/processing/input/*.npy`; for each file it
loads the array, applies `StandardScaler().fit_transform`, and saves the
result to `/opt/ml/processing/train/x_train.npy` when the path contains
the substring `'train'` and to `/opt/ml/processing/test/x_test.npy`
otherwise.  Arrays are embedded column-wise (a list of columns of ℚ),
since `StandardScaler` operates independently on each column. -/

/-- Python's `sub in s` substring test, on strings as character lists. -/
def containsSub (s sub : List Char) : Bool :=
  match s with
  | [] => sub = []
  | _ :: rest => sub.isPrefixOf s || containsSub rest sub

/-- Column mean, as computed by `StandardScaler` (`0` on an empty column,
matching the `0/0 = 0` convention of ℚ division). -/
def colMean (xs : List ℚ) : ℚ := xs.sum / xs.length

/-- Column population variance (`ddof = 0`), as computed by
`StandardScaler`. -/
def colVar (xs : List ℚ) : ℚ :=
  (xs.map (fun x => (x - colMean xs) ^ 2)).sum / xs.length

/-- One column of `StandardScaler.fit_transform`: subtract the column mean
and divide by the column's scale `σ`.  The scale numpy computes is
`sqrt(colVar xs)`; since that value is irrational in general, the
embedding passes `σ` explicitly and characterises it by `IsScaleOf`. -/
def standardize (σ : ℚ) (xs : List ℚ) : List ℚ :=
  xs.map (fun x => (x - colMean xs) / σ)

/-- `σ` is the scale `StandardScaler` uses for a non-constant column:
the positive square root of the column's variance. -/
def IsScaleOf (σ : ℚ) (xs : List ℚ) : Prop := 0 < σ ∧ σ ^ 2 = colVar xs

/-- `fit_transform` on a column-wise array: standardize each column with
its scale. -/
def fitTransformCols (σs : List ℚ) (cols : List (List ℚ)) : List (List ℚ) :=
  List.zipWith standardize σs cols

/-- The body of the `for file in input_files` loop for one file: load the
array, transform it, and pick the output path by the `'train' in file`
substring test.  The result records the `np.save` call (path, data). -/
def processFile (σs : List ℚ) (file : String × List (List ℚ)) :
    String × List (List ℚ) :=
  ((if containsSub file.1.data "train".data
    then "/opt/ml/processing/train/x_train.npy"
    else "/opt/ml/processing/test/x_test.npy"),
   fitTransformCols σs file.2)

/-- The whole run of `preprocessing.py` over the globbed input file list,
with `σss` the per-file column scales numpy computes: the list of
`np.save` calls it makes, in order. -/
def preprocessingRun (σss : List (List ℚ)) (files : List (String × List (List ℚ))) :
    List (String × List (List ℚ)) :=
  List.zipWith processFile σss files

/-! ## Training notebook: estimator parameter dictionaries -/

/-- A metric definition dictionary (`{'Name': ..., 'Regex': ...}`). -/
structure MetricDef where
  name : String
  regex : String

/-- The keyword-argument dictionary passed to the `PyTorch` estimator
constructor.  Keys present only in some of the three dictionaries built by
the training notebook are `Option`-valued / defaulted. -/
structure EstimatorParams where
  source_dir : String
  entry_point : String
  train_instance_type : String
  train_instance_count : ℕ
  hyperparameters : List (String × ℚ)
  role : String
  base_job_name : String
  framework_version : String
  py_version : String
  metric_definitions : Option (List MetricDef) := none
  train_use_spot_instances : Bool := false
  train_max_run : Option ℕ := none
  train_max_wait : Option ℕ := none
  checkpoint_s3_uri : Option String := none

/-- The hyperparameter dictionary of the Local Mode cell:
`{'epochs': 5, 'batch_size': 128, 'learning_rate': 0.01}`. -/
def localHyperparameters : List (String × ℚ) :=
  [("epochs", 5), ("batch_size", 128), ("learning_rate", 1 / 100)]

/-- The hyperparameter dictionary of the hosted and managed-spot cells:
`{'epochs': 30, 'batch_size': 128, 'learning_rate': 0.01}`. -/
def hostedHyperparameters : List (String × ℚ) :=
  [("epochs", 30), ("batch_size", 128), ("learning_rate", 1 / 100)]

/-- The metric definitions shared by the hosted and spot cells. -/
def metricDefinitions : List MetricDef :=
  [⟨"loss", " loss: ([0-9\\.]+)"⟩, ⟨"val_loss", "Test MSE: ([0-9\\.]+)"⟩]

/-- `local_estimator_parameters` (Local Mode training cell); `role` is the
runtime execution-role ARN. -/
def local_estimator_parameters (role : String) : EstimatorParams :=
  { source_dir := "pytorch-model/train_model"
    entry_point := "train_deploy.py"
    train_instance_type := "local"
    train_instance_count := 1
    hyperparameters := localHyperparameters
    role := role
    base_job_name := "pytorch-local-model"
    framework_version := "1.5"
    py_version := "py3" }

/-- `estimator_parameters` of the hosted-training cell. -/
def hosted_estimator_parameters (role : String) : EstimatorParams :=
  { source_dir := "pytorch-model/train_model"
    entry_point := "train_deploy.py"
    train_instance_type := "ml.c5.xlarge"
    train_instance_count := 1
    hyperparameters := hostedHyperparameters
    role := role
    base_job_name := "pytorch-hosted-model"
    framework_version := "1.5.1"
    py_version := "py3"
    metric_definitions := some metricDefinitions }

/-- `estimator_parameters` of the managed-spot training cell; `bucket` and
`s3_prefix` are the runtime S3 location strings. -/
def spot_estimator_parameters (role bucket s3_prefix : String) : EstimatorParams :=
  { source_dir := "pytorch-model/train_model"
    entry_point := "train_deploy.py"
    train_instance_type := "ml.c5.xlarge"
    train_instance_count := 1
    hyperparameters := hostedHyperparameters
    role := role
    base_job_name := "pytorch-hosted-model"
    framework_version := "1.5.1"
    py_version := "py3"
    metric_definitions := some metricDefinitions
    train_use_spot_instances := true
    train_max_run := some 1200
    train_max_wait := some 2400
    checkpoint_s3_uri := some ("s3://" ++ bucket ++ "/" ++ s3_prefix ++ "/checkpoint") }

/-- The SDK's argument validation for managed-spot training: when spot
instances are requested, `train_max_wait` must be present and at least
`train_max_run`, otherwise the SDK raises an argument error. -/
def validateSpotArgs (p : EstimatorParams) : Except String Unit :=
  if p.train_use_spot_instances then
    match p.train_max_run, p.train_max_wait with
    | some run, some wait =>
        if run ≤ wait then .ok () else .error "max_wait must be >= max_run"
    | _, _ => .error "spot training requires max_run and max_wait"
  else .ok ()

/-! ## Orchestration notebook: the Step Functions workflow definition

`workflow_definition = steps.Chain([preprocessing_step, training_step,
model_step, endpoint_config_step, endpoint_step])`.  A `Chain` is a linear
state-machine: each step has a `Next` pointer to the step after it, so a
step's only dependency edge points at its immediate predecessor. -/

/-- The workflow step objects constructed by the orchestration notebook. -/
inductive WStep where
  | preprocessingStep
  | trainingStep
  | modelStep
  | endpointConfigStep
  | endpointStep
  deriving DecidableEq, Repr, Fintype

/-- The display name each step is constructed with. -/
def WStep.stepName : WStep → String
  | .preprocessingStep => "Preprocessing"
  | .trainingStep => "Model Training"
  | .modelStep => "Save Model"
  | .endpointConfigStep => "Create Model Endpoint Config"
  | .endpointStep => "Create Inference Endpoint"

/-- `workflow_definition`: the chained step list, in source order. -/
def workflow_definition : List WStep :=
  [.preprocessingStep, .trainingStep, .modelStep, .endpointConfigStep, .endpointStep]

/-- The dependency edges induced by `steps.Chain`: each step after the
first depends on (runs after) its immediate predecessor.  The edge
`(a, b)` records that `b` depends on `a`. -/
def chainEdges (c : List WStep) : List (WStep × WStep) :=
  List.zip c c.tail

/-- `b` depends on `a` in the chained workflow (directly or transitively). -/
def dependsOn (c : List WStep) (a b : WStep) : Prop :=
  Relation.TransGen (fun x y => (x, y) ∈ chainEdges c) a b

/-! ## Orchestration notebook: per-execution resource names

`id = uuid4().hex`, then the execution passes
`'BostonHousing-{id}-Train'`, `'BostonHousting-{id}-Model'` (typo in the
source), `'BostonHousing-{id}-Endpoint'`. -/

/-- `training_job_name = 'BostonHousing-{}-Train'.format(id)`. -/
def training_job_name (id : String) : String :=
  "BostonHousing-" ++ id ++ "-Train"

/-- `model_name = 'BostonHousting-{}-Model'.format(id)` (the source
misspells "Housing" here). -/
def model_name (id : String) : String :=
  "BostonHousting-" ++ id ++ "-Model"

/-- `endpoint_name = 'BostonHousing-{}-Endpoint'.format(id)`. -/
def endpoint_name (id : String) : String :=
  "BostonHousing-" ++ id ++ "-Endpoint"

/-! ## Deployment notebook: serving-resource lifecycle

The deployment notebook (`pytorch-workflow-3-deploy.ipynb`) creates and
deletes serving resources in a fixed cell order.  The trace below records
each creation and deletion in the order the cells execute; the live set is
the fold of the trace. -/

/-- A serving-resource lifecycle event: creation or deletion of a named
resource. -/
inductive REvent where
  | create (name : String)
  | delete (name : String)
  deriving DecidableEq, Repr

/-- The serving resources touched by the deployment notebook, by name:
the Local Mode endpoint, the hosted endpoint `pytorch-housing`, the
autotuned endpoint `pytorch-housing-auto`, the multi-model endpoint
`mme-pytorch`, the production-variants endpoint
`pytorch-production-variants`, and the drift-monitoring schedule
`pytorch-boston-housing-model-monitor-schedule`.  Events appear in
notebook cell order; the final four deletions are the Clean Up section
(`predictor.delete_endpoint`, `tuning_predictor.delete_endpoint`,
`mme_predictor.delete_endpoint`, `aws sagemaker
delete-monitoring-schedule`); the Clean Up cell's last line is the comment
`# Manually delete production variant endpoint (for now)` and issues no
delete call for `pytorch-production-variants`. -/
def deployNotebookEvents : List REvent :=
  [ .create "local-endpoint"
  , .delete "local-endpoint"
  , .create "pytorch-housing"
  , .create "pytorch-housing-auto"
  , .create "mme-pytorch"
  , .create "pytorch-production-variants"
  , .create "pytorch-boston-housing-model-monitor-schedule"
  , .delete "pytorch-housing"
  , .delete "pytorch-housing-auto"
  , .delete "mme-pytorch"
  , .delete "pytorch-boston-housing-model-monitor-schedule" ]

/-- Fold a lifecycle trace into the list of resources still live after it
runs (in creation order). -/
def liveAfter (events : List REvent) : List String :=
  events.foldl
    (fun live e =>
      match e with
      | .create n => live ++ [n]
      | .delete n => live.filter (fun m => m ≠ n))
    []

/-! ## Error handling across the notebooks

Every call into an external SDK made by the five notebooks, with the
exception handler (if any) wrapping it.  The only `try/except` in the
repository is in the preprocessing notebook's setup cell:
`try: role = sagemaker.get_execution_role() except ValueError: role =
iam.get_role(...)['Role']['Arn']`. -/

/-- An exception handler wrapping a call: the exception class caught and
the recovery the handler performs. -/
structure Handler where
  catches : String
  recovery : String
  deriving DecidableEq, Repr

/-- One call site into an external SDK: the notebook it appears in, the
SDK operation invoked, and the handler wrapping it (if any). -/
structure SDKCall where
  notebook : String
  operation : String
  handler : Option Handler
  deriving DecidableEq, Repr

/-- The `sagemaker.get_execution_role()` call of the preprocessing
notebook's setup cell: the one call in the repository wrapped in a
`try/except`, catching `ValueError` and recovering with a boto3 IAM
role lookup. -/
def getExecutionRoleCall : SDKCall :=
  { notebook := "pytorch-workflow-1-preprocessing"
    operation := "sagemaker.get_execution_role"
    handler := some ⟨"ValueError", "role = iam.get_role(RoleName=...)[Role][Arn]"⟩ }

/-- The external-SDK call sites of the five notebooks, in notebook/cell
order.  All are bare single-shot calls except `getExecutionRoleCall`. -/
def sdkCalls : List SDKCall :=
  [ -- connect-to-snowflake.ipynb
    ⟨"connect-to-snowflake", "snowflake.connector.connect", none⟩
  , ⟨"connect-to-snowflake", "ctx.cursor", none⟩
  , ⟨"connect-to-snowflake", "cur.execute", none⟩
  , ⟨"connect-to-snowflake", "cur.fetch_pandas_all", none⟩
  , ⟨"connect-to-snowflake", "write_pandas", none⟩
    -- pytorch-workflow-1-preprocessing
  , ⟨"pytorch-workflow-1-preprocessing", "sagemaker.Session", none⟩
  , getExecutionRoleCall
  , ⟨"pytorch-workflow-1-preprocessing", "sess.upload_data", none⟩
  , ⟨"pytorch-workflow-1-preprocessing", "SKLearnProcessor", none⟩
  , ⟨"pytorch-workflow-1-preprocessing", "sklearn_processor.run", none⟩
  , ⟨"pytorch-workflow-1-preprocessing", "sklearn_processor.jobs[-1].describe", none⟩
    -- pytorch-workflow-2-training
  , ⟨"pytorch-workflow-2-training", "PyTorch(**local_estimator_parameters)", none⟩
  , ⟨"pytorch-workflow-2-training", "local_estimator.fit", none⟩
  , ⟨"pytorch-workflow-2-training", "Experiment.create", none⟩
  , ⟨"pytorch-workflow-2-training", "sess.upload_data", none⟩
  , ⟨"pytorch-workflow-2-training", "PyTorch(**estimator_parameters) hosted", none⟩
  , ⟨"pytorch-workflow-2-training", "estimator.fit hosted", none⟩
  , ⟨"pytorch-workflow-2-training", "ExperimentAnalytics.dataframe", none⟩
  , ⟨"pytorch-workflow-2-training", "PyTorch(**estimator_parameters) spot", none⟩
  , ⟨"pytorch-workflow-2-training", "estimator.fit spot", none⟩
  , ⟨"pytorch-workflow-2-training", "HyperparameterTuner", none⟩
  , ⟨"pytorch-workflow-2-training", "tuner.fit", none⟩
  , ⟨"pytorch-workflow-2-training", "tuner.wait", none⟩
  , ⟨"pytorch-workflow-2-training", "HyperparameterTuningJobAnalytics", none⟩
    -- pytorch-workflow-4-stepfunctions (orchestration)
  , ⟨"pytorch-workflow-4-stepfunctions", "SKLearnProcessor", none⟩
  , ⟨"pytorch-workflow-4-stepfunctions", "get_execution_role", none⟩
  , ⟨"pytorch-workflow-4-stepfunctions", "sess.upload_data", none⟩
  , ⟨"pytorch-workflow-4-stepfunctions", "workflow.create", none⟩
  , ⟨"pytorch-workflow-4-stepfunctions", "workflow.execute", none⟩
  , ⟨"pytorch-workflow-4-stepfunctions", "workflow.list_executions", none⟩
  , ⟨"pytorch-workflow-4-stepfunctions", "execution.list_events", none⟩
  , ⟨"pytorch-workflow-4-stepfunctions", "workflow_predictor.predict", none⟩
  , ⟨"pytorch-workflow-4-stepfunctions", "workflow_predictor.delete_endpoint", none⟩
    -- pytorch-workflow-3-deploy
  , ⟨"pytorch-workflow-3-deploy", "local_model.deploy", none⟩
  , ⟨"pytorch-workflow-3-deploy", "local_predictor.predict", none⟩
  , ⟨"pytorch-workflow-3-deploy", "local_predictor.delete_endpoint", none⟩
  , ⟨"pytorch-workflow-3-deploy", "model.deploy", none⟩
  , ⟨"pytorch-workflow-3-deploy", "predictor.predict", none⟩
  , ⟨"pytorch-workflow-3-deploy", "tuner.attach", none⟩
  , ⟨"pytorch-workflow-3-deploy", "tuner.deploy", none⟩
  , ⟨"pytorch-workflow-3-deploy", "tuning_predictor.predict", none⟩
  , ⟨"pytorch-workflow-3-deploy", "mme.deploy", none⟩
  , ⟨"pytorch-workflow-3-deploy", "mme_predictor.predict", none⟩
  , ⟨"pytorch-workflow-3-deploy", "model._create_sagemaker_model", none⟩
  , ⟨"pytorch-workflow-3-deploy", "sess.endpoint_from_production_variants", none⟩
  , ⟨"pytorch-workflow-3-deploy", "my_default_monitor.suggest_baseline", none⟩
  , ⟨"pytorch-workflow-3-deploy", "my_default_monitor.create_monitoring_schedule", none⟩
  , ⟨"pytorch-workflow-3-deploy", "my_default_monitor.describe_schedule", none⟩
  , ⟨"pytorch-workflow-3-deploy", "prodvar_predictor.predict", none⟩
  , ⟨"pytorch-workflow-3-deploy", "sm.update_endpoint_weights_and_capacities", none⟩
  , ⟨"pytorch-workflow-3-deploy", "sm_runtime.invoke_endpoint", none⟩
  , ⟨"pytorch-workflow-3-deploy", "predictor.delete_endpoint", none⟩
  , ⟨"pytorch-workflow-3-deploy", "tuning_predictor.delete_endpoint", none⟩
  , ⟨"pytorch-workflow-3-deploy", "mme_predictor.delete_endpoint", none⟩
    -- BYOC local serving test notebook
  , ⟨"byoc-local-test", "request.urlopen ping", none⟩
  , ⟨"byoc-local-test", "request.urlopen invocations", none⟩ ]

/-! ## BYOC serving container: the health check

The repository's serving-container test notebook issues
`request.urlopen("%s/ping" % base_url)` and expects code 200; the
container implementation itself is not among the source files, only this
caller. -/

/-- An HTTP request to the serving container. -/
structure HttpRequest where
  method : String
  path : String
  body : String
  deriving DecidableEq, Repr

/-- Modelled from the spec: the serving container's HTTP handler is not
among the source files (only the test notebook that calls it); the spec
states "the health-check endpoint returns HTTP 200", so `GET /ping`
answers status 200, and any other route is handled by the container's
prediction logic (`POST /invocations`) or rejected with 404. -/
def containerHandle (req : HttpRequest) : ℕ :=
  if req.method = "GET" ∧ req.path = "/ping" then 200
  else if req.method = "POST" ∧ req.path = "/invocations" then 200
  else 404

/-! ## Helper lemmas -/

theorem sum_map_div (xs : List ℚ) (f : ℚ → ℚ) (σ : ℚ) :
    (xs.map (fun x => f x / σ)).sum = (xs.map f).sum / σ := by
  induction xs with
  | nil => simp
  | cons a t ih => simp [ih, add_div]

theorem sum_map_sub (xs : List ℚ) (μ : ℚ) :
    (xs.map (fun x => x - μ)).sum = xs.sum - xs.length * μ := by
  induction xs with
  | nil => simp
  | cons a t ih => simp [ih]; ring

theorem length_cast_ne_zero (xs : List ℚ) (h : xs ≠ []) : (xs.length : ℚ) ≠ 0 :=
  Nat.cast_ne_zero.mpr (fun h0 => h (List.length_eq_zero.mp h0))

/-- A standardized column always has mean zero (the empty column has mean
`0` by the `0/0 = 0` convention). -/
theorem mean_standardize (σ : ℚ) (xs : List ℚ) :
    colMean (standardize σ xs) = 0 := by
  by_cases hxs : xs = []
  · simp [hxs, colMean, standardize]
  · have hne := length_cast_ne_zero xs hxs
    have h1 : (standardize σ xs).sum = 0 := by
      unfold standardize
      rw [sum_map_div xs (fun x => x - colMean xs) σ, sum_map_sub]
      rw [colMean, mul_div_cancel₀ _ hne]
      simp
    unfold colMean
    rw [h1, zero_div]

/-- A column standardized with its `StandardScaler` scale has unit
variance (the scale exists exactly when the column is non-constant). -/
theorem var_standardize (σ : ℚ) (xs : List ℚ) (h : IsScaleOf σ xs) :
    colVar (standardize σ xs) = 1 := by
  obtain ⟨hσ, hv⟩ := h
  have hσ2 : σ ^ 2 ≠ 0 := by positivity
  have hxs : xs ≠ [] := by
    rintro rfl
    simp [colVar] at hv
    exact absurd hv (by positivity)
  have hne := length_cast_ne_zero xs hxs
  have hm := mean_standardize σ xs
  unfold colVar
  rw [hm]
  have hlen : (standardize σ xs).length = xs.length := by simp [standardize]
  rw [hlen]
  have hsum : ((standardize σ xs).map (fun x => (x - 0) ^ 2)).sum
      = (xs.map (fun x => (x - colMean xs) ^ 2)).sum / σ ^ 2 := by
    unfold standardize
    rw [List.map_map]
    have hcomp : ((fun x => (x - 0) ^ 2) ∘ fun x => (x - colMean xs) / σ)
        = fun x => ((x - colMean xs) ^ 2) / σ ^ 2 := by
      funext x; simp [div_pow]
    rw [hcomp, sum_map_div xs (fun x => (x - colMean xs) ^ 2) (σ ^ 2)]
  have hS : (xs.map (fun x => (x - colMean xs) ^ 2)).sum = σ ^ 2 * xs.length := by
    rw [hv, colVar]
    field_simp
  rw [hsum, hS]
  field_simp

/-- Every immediate dependency edge of the chained workflow points from an
earlier step to a later one. -/
theorem chainEdge_indexOf_lt : ∀ p ∈ chainEdges workflow_definition,
    workflow_definition.indexOf p.1 < workflow_definition.indexOf p.2 := by decide

/-- Transitive dependencies in the chained workflow also point forward. -/
theorem dependsOn_indexOf_lt (a b : WStep) (h : dependsOn workflow_definition a b) :
    workflow_definition.indexOf a < workflow_definition.indexOf b := by
  induction h with
  | single h1 => exact chainEdge_indexOf_lt _ h1
  | tail _ h2 ih => exact lt_trans ih (chainEdge_indexOf_lt _ h2)

/-! ## Claim theorems -/

/-- C1 (counterexample): the claim "the notebooks never catch, classify,
or recover from an exception raised by an external SDK call" is false:
the preprocessing notebook's `sagemaker.get_execution_role()` call is
wrapped in a `try/except ValueError` handler that recovers with a boto3
IAM role lookup. -/
theorem get_execution_role_call_is_handled :
    getExecutionRoleCall ∈ sdkCalls ∧ getExecutionRoleCall.handler ≠ none := by
  refine ⟨?_, by simp [getExecutionRoleCall]⟩
  simp [sdkCalls]

/-- C1 (amended): every external SDK call site of the notebooks other
than the preprocessing notebook's `sagemaker.get_execution_role()` call
has no exception handler; any exception it raises propagates unhandled. -/
theorem sdk_calls_unhandled_except_get_execution_role
    (c : SDKCall) (hc : c ∈ sdkCalls) (hne : c ≠ getExecutionRoleCall) :
    c.handler = none := by
  fin_cases hc <;> first | rfl | exact absurd rfl hne

/-- C1 (witness): the Snowflake `connect` call is in the call list and has
no handler. -/
theorem sdk_calls_unhandled_witness :
    (⟨"connect-to-snowflake", "snowflake.connector.connect", none⟩ : SDKCall) ∈ sdkCalls ∧
    (⟨"connect-to-snowflake", "snowflake.connector.connect", none⟩ : SDKCall).handler = none :=
  ⟨by simp [sdkCalls],
   sdk_calls_unhandled_except_get_execution_role _ (by simp [sdkCalls])
     (by simp [getExecutionRoleCall])⟩

/-- C2 (counterexample): the claim "after the Clean Up section runs, no
created serving resource remains" is false: the production-variants
endpoint `pytorch-production-variants` is created by the deployment
notebook and is still live after the Clean Up cell, which deletes the
other endpoints and the monitoring schedule but only leaves a comment to
delete the production-variants endpoint manually. -/
theorem production_variants_endpoint_survives_cleanup :
    REvent.create "pytorch-production-variants" ∈ deployNotebookEvents ∧
    "pytorch-production-variants" ∈ liveAfter deployNotebookEvents := by decide

/-- C2 (amended): after the deployment notebook's Clean Up section runs,
the hosted endpoint, the autotuned endpoint, the multi-model endpoint and
the drift-monitoring schedule have been deleted, and the only created
serving resource that remains is the production-variants endpoint. -/
theorem cleanup_deletes_all_but_production_variants :
    liveAfter deployNotebookEvents = ["pytorch-production-variants"] ∧
    "pytorch-housing" ∉ liveAfter deployNotebookEvents ∧
    "pytorch-housing-auto" ∉ liveAfter deployNotebookEvents ∧
    "mme-pytorch" ∉ liveAfter deployNotebookEvents ∧
    "pytorch-boston-housing-model-monitor-schedule" ∉ liveAfter deployNotebookEvents ∧
    "local-endpoint" ∉ liveAfter deployNotebookEvents := by decide

/-- C3: between fetch and write-back the warehouse connector notebook
mutates exactly the cell at row 0, column `X0`, setting it to the freshly
drawn `temp = random.randint(0, 100)` (which lies in `[0, 100]`); every
other cell of the dataframe handed to `write_pandas` equals the fetched
value, and row 0 of the written-back dataframe carries the mutation. -/
theorem snowflake_single_cell_mutation (df : DataFrame) (seed : ℕ) :
    0 ≤ randint 0 100 seed ∧ randint 0 100 seed ≤ 100 ∧
    (snowflakeMutate df seed).val 0 "X0" = (randint 0 100 seed : ℚ) ∧
    (∀ r c, ¬(r = 0 ∧ c = "X0") →
      (snowflakeMutate df seed).val r c = df.val r c) ∧
    write_pandas (snowflakeMutate df seed) = snowflakeMutate df seed ∧
    (write_pandas (snowflakeMutate df seed)).val 0 "X0" = (randint 0 100 seed : ℚ) := by
  refine ⟨Nat.zero_le _, ?_, ?_, ?_, rfl, ?_⟩
  · unfold randint; omega
  · simp [snowflakeMutate, DataFrame.setCell]
  · intro r c h
    simp only [snowflakeMutate, DataFrame.setCell]
    rw [if_neg h]
  · simp [write_pandas, snowflakeMutate, DataFrame.setCell]

/-- C4: over any input file list (with `σss` the per-file column scales
`StandardScaler` computes), the preprocessing script produces one save per
input file; the file at index `i` is transformed by `fit_transform` and
saved to `/opt/ml/processing/train/x_train.npy` when its path contains
the substring `'train'` and to `/opt/ml/processing/test/x_test.npy`
otherwise; and every standardized non-constant column has zero mean and
unit variance. -/
theorem preprocessing_transforms_and_routes
    (files : List (String × List (List ℚ))) (σss : List (List ℚ))
    (h : σss.length = files.length) :
    (preprocessingRun σss files).length = files.length ∧
    (∀ i (hi : i < files.length) (hσ : i < σss.length)
      (hr : i < (preprocessingRun σss files).length),
      (preprocessingRun σss files).get ⟨i, hr⟩ =
        ((if containsSub (files.get ⟨i, hi⟩).1.data "train".data
          then "/opt/ml/processing/train/x_train.npy"
          else "/opt/ml/processing/test/x_test.npy"),
         fitTransformCols (σss.get ⟨i, hσ⟩) (files.get ⟨i, hi⟩).2)) ∧
    (∀ σ xs, IsScaleOf σ xs →
      colMean (standardize σ xs) = 0 ∧ colVar (standardize σ xs) = 1) := by
  refine ⟨by simp [preprocessingRun, h], ?_, ?_⟩
  · intro i hi hσ hr
    simp only [preprocessingRun, List.get_eq_getElem, List.getElem_zipWith]
    rfl
  · exact fun σ xs hs => ⟨mean_standardize σ xs, var_standardize σ xs hs⟩

/-- C4 (witness): on the notebook's own two input files `x_train.npy` and
`x_test.npy`, each holding a single column `[0, 2]` (whose scale is `1`),
the scale list matches the file list, and the standardized column has
zero mean and unit variance. -/
theorem preprocessing_transforms_and_routes_witness :
    ([[(1 : ℚ)], [1]] : List (List ℚ)).length =
      ([("/opt/ml/processing/input/x_train.npy", [[(0 : ℚ), 2]]),
        ("/opt/ml/processing/input/x_test.npy", [[(0 : ℚ), 2]])] :
        List (String × List (List ℚ))).length ∧
    colMean (standardize 1 [0, 2]) = 0 ∧ colVar (standardize 1 [0, 2]) = 1 :=
  ⟨rfl,
   (preprocessing_transforms_and_routes
      [("/opt/ml/processing/input/x_train.npy", [[(0 : ℚ), 2]]),
       ("/opt/ml/processing/input/x_test.npy", [[(0 : ℚ), 2]])]
      [[(1 : ℚ)], [1]] rfl).2.2 1 [0, 2] ⟨by norm_num, by norm_num [colVar, colMean]⟩⟩

/-- C5: the data-preparation split takes the first `⌊0.8 n⌋` rows of the
feature matrix and label vector as the training slice and the remaining
`n - ⌊0.8 n⌋` rows as the test slice, and concatenating the two slices
restores each original array exactly. -/
theorem dataSplit_partition (x : List (List ℚ)) (y : List ℚ)
    (h : y.length = x.length) :
    (dataSplit x y).1.length = training_index x.length ∧
    (dataSplit x y).2.1.length = training_index x.length ∧
    (dataSplit x y).2.2.1.length = x.length - training_index x.length ∧
    (dataSplit x y).2.2.2.length = y.length - training_index x.length ∧
    (dataSplit x y).1 ++ (dataSplit x y).2.2.1 = x ∧
    (dataSplit x y).2.1 ++ (dataSplit x y).2.2.2 = y := by
  have hx : training_index x.length ≤ x.length :=
    Nat.div_le_of_le_mul (by omega)
  have hy : training_index x.length ≤ y.length := h ▸ hx
  refine ⟨?_, ?_, ?_, ?_, ?_, ?_⟩
  · simp [dataSplit, hx]
  · simp [dataSplit, hy]
  · simp [dataSplit]
  · simp [dataSplit]
  · exact List.take_append_drop _ x
  · exact List.take_append_drop _ y

/-- C5 (witness): on a 5-row dataset the training slice has
`⌊0.8 · 5⌋ = 4` rows and the slices concatenate back to the original. -/
theorem dataSplit_partition_witness :
    ([(10 : ℚ), 20, 30, 40, 50] : List ℚ).length =
      ([[(1 : ℚ)], [2], [3], [4], [5]] : List (List ℚ)).length ∧
    (dataSplit [[(1 : ℚ)], [2], [3], [4], [5]] [10, 20, 30, 40, 50]).1.length = 4 :=
  ⟨rfl, (dataSplit_partition [[(1 : ℚ)], [2], [3], [4], [5]] [10, 20, 30, 40, 50] rfl).1⟩

/-- C6: the orchestration workflow definition is a linear chain of exactly
the five steps Preprocessing, Model Training, Save Model, Create Model
Endpoint Config, Create Inference Endpoint, in that order; every step
occurs exactly once, every dependency points at an earlier step, and the
dependency relation is acyclic. -/
theorem workflow_definition_linear_five_step_dag :
    workflow_definition.map WStep.stepName =
      ["Preprocessing", "Model Training", "Save Model",
       "Create Model Endpoint Config", "Create Inference Endpoint"] ∧
    workflow_definition.length = 5 ∧
    workflow_definition.Nodup ∧
    (∀ a b : WStep, dependsOn workflow_definition a b →
      workflow_definition.indexOf a < workflow_definition.indexOf b) ∧
    (∀ s : WStep, ¬ dependsOn workflow_definition s s) :=
  ⟨by decide, by decide, by decide, dependsOn_indexOf_lt,
   fun s hs => lt_irrefl _ (dependsOn_indexOf_lt s s hs)⟩

/-- C7: each of the three training-job configuration dictionaries built
by the notebooks (Local Mode, hosted, managed spot) carries a non-empty
hyperparameter dictionary. -/
theorem estimator_hyperparameters_nonempty (role bucket s3_prefix : String) :
    (local_estimator_parameters role).hyperparameters ≠ [] ∧
    (hosted_estimator_parameters role).hyperparameters ≠ [] ∧
    (spot_estimator_parameters role bucket s3_prefix).hyperparameters ≠ [] := by
  refine ⟨?_, ?_, ?_⟩ <;>
    simp [local_estimator_parameters, hosted_estimator_parameters,
      spot_estimator_parameters, localHyperparameters, hostedHyperparameters]

/-- C8: the serving container's health check `GET /ping` answers HTTP
status 200 for every health-check request. -/
theorem ping_returns_200 (req : HttpRequest)
    (hm : req.method = "GET") (hp : req.path = "/ping") :
    containerHandle req = 200 := by
  simp [containerHandle, hm, hp]

/-- C8 (witness): the concrete `GET /ping` request of the test notebook
receives status 200. -/
theorem ping_returns_200_witness :
    (HttpRequest.mk "GET" "/ping" "").method = "GET" ∧
    containerHandle (HttpRequest.mk "GET" "/ping" "") = 200 :=
  ⟨rfl, ping_returns_200 (HttpRequest.mk "GET" "/ping" "") rfl rfl⟩

/-- C9: the managed-spot configuration sets `train_max_run = 1200` and
`train_max_wait = 2400`, so the SDK's `max_wait ≥ max_run` argument
validation succeeds and its error branch is unreachable on this
configuration. -/
theorem spot_config_satisfies_max_wait_precondition (role bucket s3_prefix : String) :
    (spot_estimator_parameters role bucket s3_prefix).train_max_run = some 1200 ∧
    (spot_estimator_parameters role bucket s3_prefix).train_max_wait = some 2400 ∧
    validateSpotArgs (spot_estimator_parameters role bucket s3_prefix) = .ok () :=
  ⟨rfl, rfl, rfl⟩

/-- C10: for every execution id the three generated resource names are
pairwise distinct, and each name former is injective in the id, so two
distinct ids never collide on a corresponding name. -/
theorem workflow_names_collision_free :
    (∀ id : String, training_job_name id ≠ model_name id ∧
      training_job_name id ≠ endpoint_name id ∧
      model_name id ≠ endpoint_name id) ∧
    (∀ a b : String, training_job_name a = training_job_name b → a = b) ∧
    (∀ a b : String, model_name a = model_name b → a = b) ∧
    (∀ a b : String, endpoint_name a = endpoint_name b → a = b) := by
  refine ⟨fun id => ⟨?_, ?_, ?_⟩, ?_, ?_, ?_⟩
  · intro h
    have hd := congrArg (fun s => s.data.length) h
    simp [training_job_name, model_name, String.data_append] at hd
  · intro h
    have hd := congrArg (fun s => s.data.length) h
    simp [training_job_name, endpoint_name, String.data_append] at hd
  · intro h
    have hd := congrArg (fun s => s.data.length) h
    simp [model_name, endpoint_name, String.data_append] at hd
  · intro a b h
    have hd := congrArg String.data h
    simp only [training_job_name, String.data_append, List.append_assoc] at hd
    have h2 := List.append_cancel_right (List.append_cancel_left hd)
    cases a; cases b; exact congrArg String.mk h2
  · intro a b h
    have hd := congrArg String.data h
    simp only [model_name, String.data_append, List.append_assoc] at hd
    have h2 := List.append_cancel_right (List.append_cancel_left hd)
    cases a; cases b; exact congrArg String.mk h2
  · intro a b h
    have hd := congrArg String.data h
    simp only [endpoint_name, String.data_append, List.append_assoc] at hd
    have h2 := List.append_cancel_right (List.append_cancel_left hd)
    cases a; cases b; exact congrArg String.mk h2

end R7
